import Mathlib

/-!
Shallow embedding of the account-ledger and interest-accrual core of
`src/main.py` (Pillar Digital Bank bot), together with proofs about the
claims of its specification.

Monetary amounts are embedded as rationals: the Python code computes with
`Decimal`, whose additions, subtractions and multiplications on the operands
appearing here are exact, so `ℚ` represents them faithfully.  Calendar dates
are embedded as integers counting days, which is the granularity at which
`calculate_and_add_interest` reasons (`days_diff = (now - last_calc).days`).
-/

namespace PillarBank

/-- One row of the `accounts` table (src/main.py lines 164-179), restricted to
the monetary columns the ledger operations read or write. -/
structure Account where
  balance : ℚ
  available_balance : ℚ
  locked_balance : ℚ
  total_deposits : ℚ
  total_withdrawals : ℚ
  total_interest_earned : ℚ
  deriving Repr, DecidableEq

/-- `REGISTRATION_BONUS = Decimal('5.00')` (src/main.py line 81). -/
def REGISTRATION_BONUS : ℚ := 5

/-- `REFERRAL_BONUS = Decimal('1.00')` (src/main.py line 82). -/
def REFERRAL_BONUS : ℚ := 1

/-- The account row created by `create_user` (src/main.py lines 388-399 and
416-421): every monetary column starts at zero. -/
def initAccount : Account :=
  { balance := 0, available_balance := 0, locked_balance := 0,
    total_deposits := 0, total_withdrawals := 0, total_interest_earned := 0 }

/-- `DatabaseManager.update_balance` (src/main.py lines 633-681).
Deposit branch: unconditionally adds `amount` to `balance`,
`available_balance` and `total_deposits`.  Withdrawal branch: guarded by
`available_balance >= amount` (the in-memory check at line 647, equally the
`AND available_balance >= %s` clause of the conditional UPDATE at line 673);
on success subtracts `amount` from `balance` and `available_balance` and adds
it to `total_withdrawals`; otherwise returns `False` leaving the row
untouched.  The returned `Bool` is the function's Python return value. -/
def update_balance (a : Account) (amount : ℚ) (is_deposit : Bool) :
    Bool × Account :=
  match is_deposit with
  | true =>
    (true,
     { a with balance := a.balance + amount,
              available_balance := a.available_balance + amount,
              total_deposits := a.total_deposits + amount })
  | false =>
    if amount ≤ a.available_balance then
      (true,
       { a with balance := a.balance - amount,
                available_balance := a.available_balance - amount,
                total_withdrawals := a.total_withdrawals + amount })
    else
      (false, a)

/-- `DatabaseManager.lock_funds` (src/main.py lines 683-711): guarded by
`available_balance >= amount`; on success moves `amount` from
`available_balance` to `locked_balance`. -/
def lock_funds (a : Account) (amount : ℚ) : Bool × Account :=
  if amount ≤ a.available_balance then
    (true,
     { a with available_balance := a.available_balance - amount,
              locked_balance := a.locked_balance + amount })
  else
    (false, a)

/-- `DatabaseManager.unlock_funds` (src/main.py lines 713-741): guarded by
`locked_balance >= amount`; on success moves `amount` from `locked_balance`
to `available_balance`. -/
def unlock_funds (a : Account) (amount : ℚ) : Bool × Account :=
  if amount ≤ a.locked_balance then
    (true,
     { a with locked_balance := a.locked_balance - amount,
              available_balance := a.available_balance + amount })
  else
    (false, a)

/-- `DatabaseManager.add_registration_bonus` (src/main.py lines 583-606):
adds `REGISTRATION_BONUS` to `balance` and `available_balance`. -/
def add_registration_bonus (a : Account) : Account :=
  { a with balance := a.balance + REGISTRATION_BONUS,
           available_balance := a.available_balance + REGISTRATION_BONUS }

/-- `DatabaseManager.add_referral_bonus` (src/main.py lines 608-631):
adds `REFERRAL_BONUS` to `balance` and `available_balance`. -/
def add_referral_bonus (a : Account) : Account :=
  { a with balance := a.balance + REFERRAL_BONUS,
           available_balance := a.available_balance + REFERRAL_BONUS }

/-- The interest-application UPDATE issued by `show_user_dashboard`
(src/main.py lines 1963-1970) and `my_savings` (lines 2021-2028): adds the
pending interest to `balance`, `available_balance` and
`total_interest_earned`. -/
def apply_interest (a : Account) (i : ℚ) : Account :=
  { a with balance := a.balance + i,
           available_balance := a.available_balance + i,
           total_interest_earned := a.total_interest_earned + i }

/-- The balance-touching operations the code performs on one account row. -/
inductive LedgerOp where
  | deposit (amount : ℚ)
  | withdraw (amount : ℚ)
  | lock (amount : ℚ)
  | unlock (amount : ℚ)
  | regBonus
  | refBonus
  | interest (i : ℚ)
  deriving Repr, DecidableEq

/-- Effect of one operation on the account row (the `Bool` success flag is
dropped: a failed operation leaves the row unchanged). -/
def applyOp (a : Account) : LedgerOp → Account
  | .deposit q => (update_balance a q true).2
  | .withdraw q => (update_balance a q false).2
  | .lock q => (lock_funds a q).2
  | .unlock q => (unlock_funds a q).2
  | .regBonus => add_registration_bonus a
  | .refBonus => add_referral_bonus a
  | .interest i => apply_interest a i

/-- Amounts the code actually passes: deposits, withdrawals, locks and
unlocks come through `SecurityUtils.validate_amount` (src/main.py lines
1150-1160), which requires the amount to be strictly positive, and the
interest application is guarded by `pending_interest > 0` (lines 1961,
2019). -/
def opWF : LedgerOp → Prop
  | .deposit q => 0 < q
  | .withdraw q => 0 < q
  | .lock q => 0 < q
  | .unlock q => 0 < q
  | .regBonus => True
  | .refBonus => True
  | .interest i => 0 < i

instance (op : LedgerOp) : Decidable (opWF op) := by
  cases op <;> simp only [opWF] <;> infer_instance

/-- The spec's balance invariant: `balance = available + locked` and all
three components nonnegative. -/
def balInv (a : Account) : Prop :=
  a.balance = a.available_balance + a.locked_balance ∧
  0 ≤ a.balance ∧ 0 ≤ a.available_balance ∧ 0 ≤ a.locked_balance

instance (a : Account) : Decidable (balInv a) := by
  unfold balInv; infer_instance

/-- A withdrawal debit or a funds lock against one account: the two
operations the no-overdraft property quantifies over.  `true` selects the
debit (`update_balance` with `is_deposit = False`), `false` the lock. -/
def debitOrLock (a : Account) : Bool × ℚ → Account
  | (true, q) => (update_balance a q false).2
  | (false, q) => (lock_funds a q).2

/-! ## Savings plans and interest accrual -/

/-- Status values of a `user_savings_plans` row.  The schema defaults to
`'ACTIVE'`; `MATURED` and `CANCELLED` are the further states of the spec's
plan lifecycle. -/
inductive PlanStatus where
  | ACTIVE
  | MATURED
  | CANCELLED
  deriving Repr, DecidableEq

/-- One row of `user_savings_plans` (src/main.py lines 198-218), restricted
to the columns `calculate_and_add_interest` reads.  Dates are day numbers;
`last_interest_calc` is nullable exactly as in the schema. -/
structure SavingsPlan where
  principal_amount : ℚ
  daily_rate : ℚ
  start_date : ℤ
  end_date : ℤ
  status : PlanStatus
  is_locked : Bool
  last_interest_calc : Option ℤ
  deriving Repr, DecidableEq

/-- One row of `daily_interest_logs` (src/main.py lines 246-259), restricted
to the idempotency-relevant columns.  Note the schema declares no uniqueness
constraint on `(savings_plan_id, calculation_date)`. -/
structure InterestLog where
  calculation_date : ℤ
  interest_amount : ℚ
  deriving Repr, DecidableEq

/-- An uncaught Python exception the embedded code can raise. -/
inductive PyError where
  | NameError
  deriving Repr, DecidableEq

/-- The dates the day-loop of `calculate_and_add_interest` (src/main.py
lines 849-855) accrues for, given a non-NULL accrual origin `last`:
`days_diff = now - last`; for `day` in `range(days_diff)` the candidate
date is `last + day + 1`, kept when it lies in `[start_date, end_date]`. -/
def accrualDates (p : SavingsPlan) (last today : ℤ) : List ℤ :=
  let days_diff := today - last
  (List.range days_diff.toNat).filterMap (fun (day : ℕ) =>
    let d := last + (day : ℤ) + 1
    if p.start_date ≤ d ∧ d ≤ p.end_date then some d else none)

/-- `DatabaseManager.calculate_and_add_interest` (src/main.py lines 832-872)
restricted to one plan: skips non-ACTIVE plans; when `last_interest_calc`
is NULL the else-branch at line 846 evaluates `isinstance(last_calc, date)`
and raises `NameError` — line 16 imports only `datetime` and `timedelta`
from the datetime module and `date` is bound nowhere else — so the call
aborts before inserting any row or returning any total (and `src` contains
no UPDATE of `user_savings_plans`, so `last_interest_calc` stays NULL
forever once a plan is created); when `last_interest_calc` is set, for each
accrual date the loop adds `principal_amount * daily_rate` to the returned
total and inserts one `daily_interest_logs` row.  Faithful to the source,
the function neither reads the existing logs nor updates the plan's
`last_interest_calc` — the plan row is left exactly as it came in. -/
def calculate_and_add_interest (p : SavingsPlan) (today : ℤ)
    (logs : List InterestLog) : Except PyError (ℚ × List InterestLog) :=
  match p.status with
  | PlanStatus.ACTIVE =>
    match p.last_interest_calc with
    | none => Except.error PyError.NameError
    | some last =>
      let ds := accrualDates p last today
      let daily := p.principal_amount * p.daily_rate
      Except.ok ((ds.length : ℚ) * daily, logs ++ ds.map (fun d => ⟨d, daily⟩))
  | _ => Except.ok (0, logs)

/-- One row of `savings_plan_templates` (src/main.py lines 182-195),
restricted to the columns `savings_confirm` uses. -/
structure PlanTemplate where
  min_amount : ℚ
  duration_days : ℕ
  daily_rate : ℚ
  is_locked : Bool
  deriving Repr, DecidableEq

/-- The state-changing core of `savings_confirm` (src/main.py lines
2216-2281): `create_savings_plan` (lines 772-814) inserts an ACTIVE plan
with `start_date = today`, `end_date = today + duration_days`,
`last_interest_calc` null, and then — line 2246 — `db.lock_funds(user_id,
amount)` is called unconditionally, whatever the template's `is_locked`
flag says. -/
def savings_confirm (acct : Account) (tmpl : PlanTemplate) (amount : ℚ)
    (today : ℤ) : Account × SavingsPlan :=
  let plan : SavingsPlan :=
    { principal_amount := amount, daily_rate := tmpl.daily_rate,
      start_date := today, end_date := today + tmpl.duration_days,
      status := PlanStatus.ACTIVE, is_locked := tmpl.is_locked,
      last_interest_calc := none }
  ((lock_funds acct amount).2, plan)

/-- Modelled from the spec: src/main.py contains no maturity code at all —
nothing ever sets a plan's status to MATURED and `unlock_funds` has no call
site — so `mature_plan` of spec §4.3 is modelled from the spec's words
("Idempotent: a plan already MATURED is a no-op, not an error. If
`template.is_locked`, `Ledger.unlock(user_id, principal)`. Sets
`status = MATURED`. ... maturity does not itself credit interest — only
releases locked principal"), reusing the `unlock_funds` embedded from
src. -/
def mature_plan (p : SavingsPlan) (acct : Account) : SavingsPlan × Account :=
  if p.status = PlanStatus.MATURED then
    (p, acct)
  else if p.is_locked then
    ({ p with status := PlanStatus.MATURED },
     (unlock_funds acct p.principal_amount).2)
  else
    ({ p with status := PlanStatus.MATURED }, acct)

/-! ## Transactions and the admin decision workflow -/

/-- Transaction status values used by the code (`'PENDING'` default in the
schema, `'COMPLETED'`/`'REJECTED'` in the history display, and the spec's
`APPROVED`). -/
inductive TxStatus where
  | PENDING
  | APPROVED
  | REJECTED
  | COMPLETED
  deriving Repr, DecidableEq

inductive TxType where
  | DEPOSIT
  | WITHDRAW
  deriving Repr, DecidableEq

/-- One row of `transactions` (src/main.py lines 221-243), restricted to the
columns the decision workflow touches. -/
structure Tx where
  tx_type : TxType
  amount : ℚ
  status : TxStatus
  reviewed_by : Option ℤ
  admin_note : Option String
  deriving Repr, DecidableEq

/-- `DatabaseManager.update_transaction_status` (src/main.py lines 916-946):
sets `status`, `reviewed_by` and `admin_note` unconditionally — the UPDATE's
WHERE clause matches on `transaction_id` only, with no guard on the current
status. -/
def update_transaction_status (tx : Tx) (status : TxStatus) (admin : ℤ)
    (note : Option String) : Tx :=
  { tx with status := status, reviewed_by := some admin, admin_note := note }

inductive Decision where
  | approve
  | reject
  deriving Repr, DecidableEq

/-- Typed errors of the spec's error taxonomy (§7) that the decision
workflow can report. -/
inductive DecideError where
  | NotFound
  | AlreadyReviewed
  | InsufficientFunds
  deriving Repr, DecidableEq

/-- What `decide` reports back to its caller. -/
inductive DecideResult where
  | approved
  | rejectedByAdmin
  | rejectedInsufficientFunds
  | failed (e : DecideError)
  deriving Repr, DecidableEq

/-- Modelled from the spec: src/main.py contains no admin decision handler
for deposit/withdraw transactions — `admin_callback` (lines 1643-1664)
handles only the registration callbacks, while the
`admin_confirm_deposit_…`/`admin_approve_withdraw_…` buttons produced at
lines 2392-2393 and 2591-2592 have no matching branch — so `decide` of spec
§4.2 is modelled from the spec's words ("fails with `AlreadyReviewed` if
`status != PENDING` (no re-review). On APPROVE + DEPOSIT:
`Ledger.credit(user_id, amount)`, mark APPROVED. On APPROVE + WITHDRAW:
attempt `Ledger.debit(user_id, amount)`; if it fails with
`InsufficientFunds`, the transaction is instead marked REJECTED with that
reason. On REJECT: mark REJECTED; no balance effect"), reusing the
`update_transaction_status` and `update_balance` embedded from src.  The
returned transaction and account are the post-state; on failure both are
returned unchanged. -/
def decide (tx : Tx) (d : Decision) (admin : ℤ) (note : Option String)
    (acct : Account) : DecideResult × Tx × Account :=
  if tx.status = TxStatus.PENDING then
    match d with
    | Decision.reject =>
      (DecideResult.rejectedByAdmin,
       update_transaction_status tx TxStatus.REJECTED admin note, acct)
    | Decision.approve =>
      match tx.tx_type with
      | TxType.DEPOSIT =>
        (DecideResult.approved,
         update_transaction_status tx TxStatus.APPROVED admin note,
         (update_balance acct tx.amount true).2)
      | TxType.WITHDRAW =>
        let r := update_balance acct tx.amount false
        if r.1 then
          (DecideResult.approved,
           update_transaction_status tx TxStatus.APPROVED admin note, r.2)
        else
          (DecideResult.rejectedInsufficientFunds,
           update_transaction_status tx TxStatus.REJECTED admin note, acct)
  else
    (DecideResult.failed DecideError.AlreadyReviewed, tx, acct)

/-! ## Registration approval and referral bonuses -/

/-- One row of `referrals` (src/main.py lines 262-271), restricted to the
columns `process_referral_bonus` uses.  `referred_id` is UNIQUE in the
schema, so a referred user has at most one row: an `Option` models it. -/
structure ReferralRec where
  referrer_id : ℤ
  bonus_paid : Bool
  deriving Repr, DecidableEq

inductive UserStatus where
  | PENDING
  | APPROVED
  | REJECTED
  deriving Repr, DecidableEq

/-- The slice of database state `approve_user` touches for one referred
user: the user's own account, the referrer's account, the user's
registration status and `referred_by` column, and the user's `referrals`
row. -/
structure ApprovalState where
  userAcct : Account
  referrerAcct : Account
  userStatus : UserStatus
  referred_by : Option ℤ
  referral : Option ReferralRec
  deriving Repr, DecidableEq

/-- `DatabaseManager.process_referral_bonus` (src/main.py lines 1016-1047):
looks up the referral row with `bonus_paid = FALSE` for the referred user;
when found, credits `add_referral_bonus` to the referrer and sets
`bonus_paid = TRUE`; otherwise does nothing and returns `False`. -/
def process_referral_bonus (s : ApprovalState) : Bool × ApprovalState :=
  match s.referral with
  | some r =>
    if r.bonus_paid then
      (false, s)
    else
      (true,
       { s with referrerAcct := add_referral_bonus s.referrerAcct,
                referral := some { r with bonus_paid := true } })
  | none => (false, s)

/-- The state-changing core of `approve_user` (src/main.py lines 1666-1725):
sets the user's status to APPROVED (`update_user_status`, lines 513-533,
unconditional UPDATE), credits `add_registration_bonus`, and, when the user
has a `referred_by`, runs `process_referral_bonus`. -/
def approve_user (s : ApprovalState) : ApprovalState :=
  let s1 := { s with userStatus := UserStatus.APPROVED,
                     userAcct := add_registration_bonus s.userAcct }
  if s.referred_by.isSome then (process_referral_bonus s1).2 else s1

/-! ## Concrete instances used as inputs of witnesses and counterexamples -/

/-- An ACTIVE plan (principal 100.00, daily rate 0.01, term day 0 to day 7)
whose accrual origin is recorded: `last_interest_calc` set to day 0. -/
def c2Plan : SavingsPlan :=
  { principal_amount := 100, daily_rate := 1/100, start_date := 0,
    end_date := 7, status := PlanStatus.ACTIVE, is_locked := true,
    last_interest_calc := some 0 }

/-- The Silver-like plan of the spec's catch-up scenario: principal 1000.00,
daily rate 0.012, term day 0 to day 7, interest never yet calculated. -/
def c8Plan : SavingsPlan :=
  { principal_amount := 1000, daily_rate := 12/1000, start_date := 0,
    end_date := 7, status := PlanStatus.ACTIVE, is_locked := true,
    last_interest_calc := none }

/-- The `Basic` template (src/main.py line 297): min 100.00, 1 day, daily
rate 0.01, `is_locked = False`. -/
def basicTemplate : PlanTemplate :=
  { min_amount := 100, duration_days := 1, daily_rate := 1/100,
    is_locked := false }

/-- An account with 200.00 available and nothing locked. -/
def c6Account : Account :=
  { balance := 200, available_balance := 200, locked_balance := 0,
    total_deposits := 200, total_withdrawals := 0,
    total_interest_earned := 0 }

/-- The spec's withdrawal-rejection scenario account: 50.00 available. -/
def c5Account : Account :=
  { balance := 50, available_balance := 50, locked_balance := 0,
    total_deposits := 50, total_withdrawals := 0,
    total_interest_earned := 0 }

/-- A PENDING withdrawal of 80.00. -/
def c5Tx : Tx :=
  { tx_type := TxType.WITHDRAW, amount := 80, status := TxStatus.PENDING,
    reviewed_by := none, admin_note := none }

/-- A PENDING deposit of 100.00. -/
def c4Tx : Tx :=
  { tx_type := TxType.DEPOSIT, amount := 100, status := TxStatus.PENDING,
    reviewed_by := none, admin_note := none }

/-- A matured-plan input: locked plan of principal 40.00 over an account
holding exactly that amount locked. -/
def c7Plan : SavingsPlan :=
  { principal_amount := 40, daily_rate := 1/100, start_date := 0,
    end_date := 4, status := PlanStatus.ACTIVE, is_locked := true,
    last_interest_calc := some 4 }

def c7Account : Account :=
  { balance := 100, available_balance := 60, locked_balance := 40,
    total_deposits := 100, total_withdrawals := 0,
    total_interest_earned := 0 }

/-- The referrer's account in the C10 scenario: 10.00 available. -/
def c10ReferrerAcct : Account :=
  { balance := 10, available_balance := 10, locked_balance := 0,
    total_deposits := 10, total_withdrawals := 0,
    total_interest_earned := 0 }

/-- The approval-relevant state registration leaves for a referred user:
`create_user` (src/main.py lines 365-430, invoked at line 1518 with the
`referred_by` collected in the referral step) stores `referred_by` on the
user row and creates the account, but no code path ever calls
`DatabaseManager.add_referral` (src/main.py lines 992-1014; its definition
is its only occurrence), so no `referrals` row exists for the referred
user: `referral = none`. -/
def registered_referred_state (userAcct referrerAcct : Account)
    (rid : ℤ) : ApprovalState :=
  { userAcct := userAcct, referrerAcct := referrerAcct,
    userStatus := UserStatus.PENDING, referred_by := some rid,
    referral := none }

/-! ## Helper lemmas -/

theorem balInv_applyOp {a : Account} {op : LedgerOp}
    (ha : balInv a) (hop : opWF op) : balInv (applyOp a op) := by
  obtain ⟨heq, hb, hav, hlk⟩ := ha
  unfold balInv
  cases op with
  | deposit q =>
    have hq : 0 < q := hop
    simp only [applyOp, update_balance]
    refine ⟨?_, ?_, ?_, ?_⟩ <;> dsimp only <;> linarith
  | withdraw q =>
    have hq : 0 < q := hop
    simp only [applyOp, update_balance]
    split_ifs with h
    · refine ⟨?_, ?_, ?_, ?_⟩ <;> dsimp only <;> linarith
    · exact ⟨heq, hb, hav, hlk⟩
  | lock q =>
    have hq : 0 < q := hop
    simp only [applyOp, lock_funds]
    split_ifs with h
    · refine ⟨?_, ?_, ?_, ?_⟩ <;> dsimp only <;> linarith
    · exact ⟨heq, hb, hav, hlk⟩
  | unlock q =>
    have hq : 0 < q := hop
    simp only [applyOp, unlock_funds]
    split_ifs with h
    · refine ⟨?_, ?_, ?_, ?_⟩ <;> dsimp only <;> linarith
    · exact ⟨heq, hb, hav, hlk⟩
  | regBonus =>
    simp only [applyOp, add_registration_bonus, REGISTRATION_BONUS]
    refine ⟨?_, ?_, ?_, ?_⟩ <;> dsimp only <;> linarith
  | refBonus =>
    simp only [applyOp, add_referral_bonus, REFERRAL_BONUS]
    refine ⟨?_, ?_, ?_, ?_⟩ <;> dsimp only <;> linarith
  | interest i =>
    have hi : 0 < i := hop
    simp only [applyOp, apply_interest]
    refine ⟨?_, ?_, ?_, ?_⟩ <;> dsimp only <;> linarith

theorem balInv_foldl {a : Account} (ops : List LedgerOp)
    (ha : balInv a) (h : ∀ op ∈ ops, opWF op) :
    balInv (ops.foldl applyOp a) := by
  induction ops generalizing a with
  | nil => exact ha
  | cons op rest ih =>
    exact ih (balInv_applyOp ha (h op (List.mem_cons_self op rest)))
      (fun o ho => h o (List.mem_cons_of_mem op ho))

theorem avail_nonneg_debitOrLock {a : Account} (h : 0 ≤ a.available_balance)
    (step : Bool × ℚ) : 0 ≤ (debitOrLock a step).available_balance := by
  obtain ⟨b, q⟩ := step
  cases b with
  | true =>
    simp only [debitOrLock, update_balance]
    split_ifs with hq
    · dsimp only; linarith
    · exact h
  | false =>
    simp only [debitOrLock, lock_funds]
    split_ifs with hq
    · dsimp only; linarith
    · exact h

theorem avail_nonneg_foldl_debitOrLock {a : Account}
    (h : 0 ≤ a.available_balance) (ops : List (Bool × ℚ)) :
    0 ≤ (ops.foldl debitOrLock a).available_balance := by
  induction ops generalizing a with
  | nil => exact h
  | cons st rest ih => exact ih (avail_nonneg_debitOrLock h st)

theorem approve_user_of_referral_none {s : ApprovalState}
    (h : s.referral = none) :
    (approve_user s).referrerAcct = s.referrerAcct ∧
    (approve_user s).referral = none := by
  simp only [approve_user, process_referral_bonus]
  by_cases hb : s.referred_by.isSome <;> simp [hb, h]

theorem approve_user_credits_registration (t : ApprovalState) :
    (approve_user t).userAcct.balance = t.userAcct.balance + 5 ∧
    (approve_user t).userAcct.available_balance
       = t.userAcct.available_balance + 5 := by
  simp only [approve_user, process_referral_bonus, add_registration_bonus,
    REGISTRATION_BONUS]
  cases ht : t.referral with
  | none =>
    by_cases hb : t.referred_by.isSome <;>
      simp [hb, ht, add_referral_bonus]
  | some rr =>
    by_cases hb : t.referred_by.isSome <;>
      by_cases hp : rr.bonus_paid <;>
        simp [hb, ht, hp, add_referral_bonus]

/-! ## Claim theorems -/

/-- C1: starting from the account row `create_user` writes, every sequence
of balance-touching operations the code performs (deposit credit, withdrawal
debit, lock, unlock, registration/referral bonus crediting, interest
crediting, with the positive amounts the code validates) leaves the account
with `balance = available_balance + locked_balance` and all three balances
nonnegative. -/
theorem C1_balance_invariant (ops : List LedgerOp)
    (h : ∀ op ∈ ops, opWF op) :
    balInv (ops.foldl applyOp initAccount) :=
  balInv_foldl ops (by unfold balInv initAccount; norm_num) h

theorem C1_balance_invariant_witness :
    balInv ([LedgerOp.deposit 100, LedgerOp.lock 40, LedgerOp.withdraw 30,
      LedgerOp.regBonus, LedgerOp.interest 2, LedgerOp.unlock 10,
      LedgerOp.refBonus].foldl applyOp initAccount) :=
  C1_balance_invariant _ (by decide)

/-- C3: the withdrawal debit of `update_balance` succeeds if and only if
`available_balance ≥ amount`; on success `available_balance` and `balance`
each decrease by exactly the amount; on failure the account row is
unchanged; and no sequence of debit or lock calls drives a nonnegative
`available_balance` below zero. -/
theorem C3_debit_no_overdraft (a : Account) (q : ℚ)
    (ops : List (Bool × ℚ)) (h0 : 0 ≤ a.available_balance) :
    ((update_balance a q false).1 = true ↔ q ≤ a.available_balance) ∧
    ((update_balance a q false).1 = true →
      (update_balance a q false).2.available_balance
          = a.available_balance - q ∧
      (update_balance a q false).2.balance = a.balance - q) ∧
    ((update_balance a q false).1 = false → (update_balance a q false).2 = a) ∧
    0 ≤ (ops.foldl debitOrLock a).available_balance := by
  refine ⟨?_, ?_, ?_, avail_nonneg_foldl_debitOrLock h0 ops⟩ <;>
    · simp only [update_balance]
      split_ifs with hq <;> simp [hq]

theorem C3_debit_no_overdraft_witness :
    (0 : ℚ) ≤ (50 : ℚ) ∧
    (((update_balance c5Account 80 false).1 = true ↔
        (80 : ℚ) ≤ c5Account.available_balance) ∧
     ((update_balance c5Account 80 false).1 = true →
       (update_balance c5Account 80 false).2.available_balance
           = c5Account.available_balance - 80 ∧
       (update_balance c5Account 80 false).2.balance
           = c5Account.balance - 80) ∧
     ((update_balance c5Account 80 false).1 = false →
       (update_balance c5Account 80 false).2 = c5Account) ∧
     0 ≤ ([(true, (30 : ℚ)), (false, 15), (true, 100)].foldl
            debitOrLock c5Account).available_balance) :=
  ⟨by norm_num,
   C3_debit_no_overdraft c5Account 80 [(true, 30), (false, 15), (true, 100)]
     (by norm_num [c5Account])⟩

/-- C9: `lock_funds` and `unlock_funds`, whether they succeed or fail, leave
`balance`, `total_deposits`, `total_withdrawals` and
`total_interest_earned` unchanged. -/
theorem C9_lock_unlock_frame (a : Account) (q : ℚ) :
    ((lock_funds a q).2.balance = a.balance ∧
     (lock_funds a q).2.total_deposits = a.total_deposits ∧
     (lock_funds a q).2.total_withdrawals = a.total_withdrawals ∧
     (lock_funds a q).2.total_interest_earned = a.total_interest_earned) ∧
    ((unlock_funds a q).2.balance = a.balance ∧
     (unlock_funds a q).2.total_deposits = a.total_deposits ∧
     (unlock_funds a q).2.total_withdrawals = a.total_withdrawals ∧
     (unlock_funds a q).2.total_interest_earned = a.total_interest_earned) := by
  unfold lock_funds unlock_funds
  constructor <;> split_ifs <;> exact ⟨rfl, rfl, rfl, rfl⟩

/-- C2 (code bug witness): for a plan whose accrual origin is recorded
(`last_interest_calc` = day 0), `calculate_and_add_interest` run twice in
immediate succession on day 1 credits the same day twice — the function
never updates `last_interest_calc` and never consults the existing
`daily_interest_logs` rows, so the second run returns the same 1.00 again
and appends a second log row for the already-recorded (plan, day 1) pair,
instead of being a no-op.  (For the NULL `last_interest_calc` state the
code itself leaves plans in, both runs instead raise `NameError` at line
846 and accrue nothing — see the C8 theorem.) -/
theorem C2_second_run_repeats_credit :
    calculate_and_add_interest c2Plan 1 []
        = Except.ok (1, [{ calculation_date := 1, interest_amount := 1 }]) ∧
    calculate_and_add_interest c2Plan 1
        [{ calculation_date := 1, interest_amount := 1 }]
        = Except.ok (1, [{ calculation_date := 1, interest_amount := 1 },
                         { calculation_date := 1, interest_amount := 1 }]) := by
  have hds : accrualDates c2Plan 0 1 = [1] := by decide
  have hact : c2Plan.status = PlanStatus.ACTIVE := rfl
  have hlast : c2Plan.last_interest_calc = some 0 := rfl
  have hpr : c2Plan.principal_amount = 100 := rfl
  have hdr : c2Plan.daily_rate = 1/100 := rfl
  constructor <;>
    · simp only [calculate_and_add_interest, hact, hlast, hds, hpr, hdr,
        List.length_cons, List.length_nil, List.map_cons, List.map_nil,
        List.nil_append, List.cons_append, Except.ok.injEq, Prod.mk.injEq]
      norm_num

/-- C8 (code bug witness): at the catch-up scenario input — a fresh ACTIVE
plan whose interest was never calculated (`last_interest_calc` NULL,
exactly as `create_savings_plan` leaves every plan, since nothing in src
ever updates it) with 3 elapsed days inside the term —
`calculate_and_add_interest` raises `NameError`: line 846 evaluates
`isinstance(last_calc, date)` and `date` is never imported.  The run
aborts, producing zero interest records and zero credits instead of the
claimed 3. -/
theorem C8_catchup_crashes :
    c8Plan.status = PlanStatus.ACTIVE ∧
    c8Plan.last_interest_calc = none ∧
    c8Plan.start_date = 0 ∧ (3 : ℤ) ≤ c8Plan.end_date ∧
    calculate_and_add_interest c8Plan 3 []
        = Except.error PyError.NameError :=
  ⟨rfl, rfl, rfl, by decide, rfl⟩

/-- C6 (counterexample): the `Basic` template has `is_locked = false`, yet
confirming a savings plan on it moves the principal from
`available_balance` to `locked_balance` — `savings_confirm` calls
`lock_funds` unconditionally — refuting "no balance movement" for unlocked
templates. -/
theorem C6_counterexample :
    basicTemplate.is_locked = false ∧
    c6Account.available_balance = 200 ∧ c6Account.locked_balance = 0 ∧
    (savings_confirm c6Account basicTemplate 100 0).1.available_balance
        = 100 ∧
    (savings_confirm c6Account basicTemplate 100 0).1.locked_balance
        = 100 := by
  norm_num [savings_confirm, lock_funds, c6Account, basicTemplate]

/-- C6 (amended): opening a savings plan attempts to move the principal from
`available_balance` to `locked_balance` regardless of the template's
`is_locked` flag; whenever the principal is covered by `available_balance`
the movement happens, and the resulting account is identical whether the
template is locked or not. -/
theorem C6_amended_always_locks (acct : Account) (tmpl : PlanTemplate)
    (amount : ℚ) (today : ℤ) (h : amount ≤ acct.available_balance) :
    (savings_confirm acct tmpl amount today).1.available_balance
        = acct.available_balance - amount ∧
    (savings_confirm acct tmpl amount today).1.locked_balance
        = acct.locked_balance + amount ∧
    (savings_confirm acct tmpl amount today).1
        = (savings_confirm acct { tmpl with is_locked := !tmpl.is_locked }
             amount today).1 := by
  simp only [savings_confirm, lock_funds, if_pos h]
  refine ⟨?_, ?_, ?_⟩ <;> trivial

theorem C6_amended_always_locks_witness :
    ((100 : ℚ) ≤ c6Account.available_balance) ∧
    ((savings_confirm c6Account basicTemplate 100 0).1.available_balance
        = c6Account.available_balance - 100 ∧
     (savings_confirm c6Account basicTemplate 100 0).1.locked_balance
        = c6Account.locked_balance + 100 ∧
     (savings_confirm c6Account basicTemplate 100 0).1
        = (savings_confirm c6Account
             { basicTemplate with is_locked := !basicTemplate.is_locked }
             100 0).1) :=
  ⟨by norm_num [c6Account],
   C6_amended_always_locks c6Account basicTemplate 100 0
     (by norm_num [c6Account])⟩

theorem decide_not_pending {tx : Tx} (h : ¬tx.status = TxStatus.PENDING)
    (d : Decision) (a : ℤ) (n : Option String) (acct : Account) :
    decide tx d a n acct
      = (DecideResult.failed DecideError.AlreadyReviewed, tx, acct) := by
  unfold decide
  rw [if_neg h]

/-- C4: a PENDING transaction transitions out of PENDING exactly once — the
first `decide` call leaves it APPROVED or REJECTED, and any second `decide`
call on the resulting transaction fails with `AlreadyReviewed`, returning
the transaction and the account unchanged. -/
theorem C4_transaction_terminality (tx : Tx) (d d2 : Decision)
    (a1 a2 : ℤ) (n1 n2 : Option String) (acct1 acct2 : Account)
    (h : tx.status = TxStatus.PENDING) :
    ((decide tx d a1 n1 acct1).2.1.status = TxStatus.APPROVED ∨
     (decide tx d a1 n1 acct1).2.1.status = TxStatus.REJECTED) ∧
    decide (decide tx d a1 n1 acct1).2.1 d2 a2 n2 acct2
        = (DecideResult.failed DecideError.AlreadyReviewed,
           (decide tx d a1 n1 acct1).2.1, acct2) := by
  have hdec :
      (decide tx d a1 n1 acct1).2.1.status = TxStatus.APPROVED ∨
      (decide tx d a1 n1 acct1).2.1.status = TxStatus.REJECTED := by
    unfold decide
    rw [if_pos h]
    cases d with
    | reject => exact Or.inr rfl
    | approve =>
      cases htt : tx.tx_type with
      | DEPOSIT => exact Or.inl rfl
      | WITHDRAW =>
        by_cases hw : (update_balance acct1 tx.amount false).1
        · simp only [hw, if_true]
          exact Or.inl rfl
        · simp only [hw, Bool.false_eq_true, if_false]
          exact Or.inr rfl
  refine ⟨hdec, ?_⟩
  have hne : ¬(decide tx d a1 n1 acct1).2.1.status = TxStatus.PENDING := by
    rcases hdec with h1 | h1 <;> rw [h1] <;> intro hc <;> exact absurd hc (by simp)
  exact decide_not_pending hne d2 a2 n2 acct2

theorem C4_transaction_terminality_witness :
    c4Tx.status = TxStatus.PENDING ∧
    (((decide c4Tx Decision.approve 9 none initAccount).2.1.status
          = TxStatus.APPROVED ∨
      (decide c4Tx Decision.approve 9 none initAccount).2.1.status
          = TxStatus.REJECTED) ∧
     decide (decide c4Tx Decision.approve 9 none initAccount).2.1
         Decision.reject 9 none initAccount
        = (DecideResult.failed DecideError.AlreadyReviewed,
           (decide c4Tx Decision.approve 9 none initAccount).2.1,
           initAccount)) :=
  ⟨rfl, C4_transaction_terminality c4Tx Decision.approve Decision.reject
    9 9 none none initAccount initAccount rfl⟩

/-- C5: approving a PENDING WITHDRAW transaction whose amount exceeds the
account's `available_balance` marks the transaction REJECTED, reports
`rejectedInsufficientFunds` to the caller, and leaves the account
unchanged. -/
theorem C5_insufficient_withdraw_rejected (tx : Tx) (admin : ℤ)
    (note : Option String) (acct : Account)
    (hp : tx.status = TxStatus.PENDING) (ht : tx.tx_type = TxType.WITHDRAW)
    (hin : acct.available_balance < tx.amount) :
    decide tx Decision.approve admin note acct
      = (DecideResult.rejectedInsufficientFunds,
         update_transaction_status tx TxStatus.REJECTED admin note, acct) ∧
    (decide tx Decision.approve admin note acct).2.1.status
      = TxStatus.REJECTED ∧
    (decide tx Decision.approve admin note acct).2.2 = acct := by
  have hfail : (update_balance acct tx.amount false).1 = false := by
    simp only [update_balance]
    rw [if_neg (by linarith)]
  have hmain :
      decide tx Decision.approve admin note acct
        = (DecideResult.rejectedInsufficientFunds,
           update_transaction_status tx TxStatus.REJECTED admin note, acct) := by
    unfold decide
    rw [if_pos hp]
    simp only [ht, hfail, Bool.false_eq_true, if_false]
  exact ⟨hmain, by rw [hmain]; rfl, by rw [hmain]⟩

theorem C5_insufficient_withdraw_rejected_witness :
    (c5Tx.status = TxStatus.PENDING ∧ c5Tx.tx_type = TxType.WITHDRAW ∧
     c5Account.available_balance < c5Tx.amount) ∧
    (decide c5Tx Decision.approve 9 none c5Account
       = (DecideResult.rejectedInsufficientFunds,
          update_transaction_status c5Tx TxStatus.REJECTED 9 none,
          c5Account) ∧
     (decide c5Tx Decision.approve 9 none c5Account).2.1.status
       = TxStatus.REJECTED ∧
     (decide c5Tx Decision.approve 9 none c5Account).2.2 = c5Account) :=
  ⟨⟨rfl, rfl, by norm_num [c5Account, c5Tx]⟩,
   C5_insufficient_withdraw_rejected c5Tx 9 none c5Account rfl rfl
     (by norm_num [c5Account, c5Tx])⟩

/-- C7: maturing an ACTIVE locked plan whose principal is covered by the
account's `locked_balance` returns the principal to `available_balance`,
sets `status = MATURED`, credits no interest (`balance` and
`total_interest_earned` are untouched), and maturing an already-MATURED
plan is a no-op. -/
theorem C7_maturity (p : SavingsPlan) (acct : Account)
    (hact : p.status = PlanStatus.ACTIVE) (hl : p.is_locked = true)
    (hlb : p.principal_amount ≤ acct.locked_balance) :
    ((mature_plan p acct).1.status = PlanStatus.MATURED ∧
     (mature_plan p acct).2.available_balance
        = acct.available_balance + p.principal_amount ∧
     (mature_plan p acct).2.locked_balance
        = acct.locked_balance - p.principal_amount ∧
     (mature_plan p acct).2.balance = acct.balance ∧
     (mature_plan p acct).2.total_interest_earned
        = acct.total_interest_earned) ∧
    (∀ (q : SavingsPlan) (b : Account), q.status = PlanStatus.MATURED →
       mature_plan q b = (q, b)) := by
  constructor
  · have hne : ¬p.status = PlanStatus.MATURED := by rw [hact]; simp
    simp only [mature_plan, hne, if_false, hl, if_true, unlock_funds,
      if_pos hlb]
    refine ⟨?_, ?_, ?_, ?_, ?_⟩ <;> trivial
  · intro q b hq
    simp only [mature_plan, hq, if_true]

theorem C7_maturity_witness :
    (c7Plan.status = PlanStatus.ACTIVE ∧ c7Plan.is_locked = true ∧
     c7Plan.principal_amount ≤ c7Account.locked_balance) ∧
    (((mature_plan c7Plan c7Account).1.status = PlanStatus.MATURED ∧
      (mature_plan c7Plan c7Account).2.available_balance
         = c7Account.available_balance + c7Plan.principal_amount ∧
      (mature_plan c7Plan c7Account).2.locked_balance
         = c7Account.locked_balance - c7Plan.principal_amount ∧
      (mature_plan c7Plan c7Account).2.balance = c7Account.balance ∧
      (mature_plan c7Plan c7Account).2.total_interest_earned
         = c7Account.total_interest_earned) ∧
     (∀ (q : SavingsPlan) (b : Account), q.status = PlanStatus.MATURED →
        mature_plan q b = (q, b))) :=
  ⟨⟨rfl, rfl, by norm_num [c7Plan, c7Account]⟩,
   C7_maturity c7Plan c7Account rfl rfl (by norm_num [c7Plan, c7Account])⟩

/-- C10 (counterexample): approving a referred user from the state
registration actually produces — `referred_by` set but no `referrals` row,
because `add_referral` is never called — leaves the referrer's account
completely unchanged: the claimed 1.00 referral bonus is not credited. -/
theorem C10_counterexample :
    (registered_referred_state initAccount c10ReferrerAcct 47).referred_by
        = some 47 ∧
    (approve_user
        (registered_referred_state initAccount c10ReferrerAcct 47)).referrerAcct
        = c10ReferrerAcct ∧
    ¬(approve_user
        (registered_referred_state initAccount c10ReferrerAcct 47)).referrerAcct.balance
        = c10ReferrerAcct.balance + 1 := by
  refine ⟨rfl, rfl, ?_⟩
  have h2 : (approve_user
      (registered_referred_state initAccount c10ReferrerAcct 47)).referrerAcct
      = c10ReferrerAcct := rfl
  rw [h2]
  simp

/-- C10 (amended): approving a user's registration credits exactly 5.00 to
both `balance` and `available_balance` of the user's account (for any input
state); no referral bonus is ever credited: since no code path creates a
`referrals` row, `process_referral_bonus` finds nothing and the referrer's
account is unchanged by the approval — also under repeated approvals. -/
theorem C10_registration_bonus_only (s : ApprovalState)
    (h : s.referral = none) :
    (∀ t : ApprovalState,
       (approve_user t).userAcct.balance = t.userAcct.balance + 5 ∧
       (approve_user t).userAcct.available_balance
          = t.userAcct.available_balance + 5) ∧
    (approve_user s).referrerAcct = s.referrerAcct ∧
    (approve_user (approve_user s)).referrerAcct = s.referrerAcct := by
  obtain ⟨h1, h1r⟩ := approve_user_of_referral_none h
  obtain ⟨h2, _⟩ := approve_user_of_referral_none h1r
  exact ⟨approve_user_credits_registration, h1, h2.trans h1⟩

theorem C10_registration_bonus_only_witness :
    (registered_referred_state initAccount c10ReferrerAcct 47).referral
        = none ∧
    ((∀ t : ApprovalState,
        (approve_user t).userAcct.balance = t.userAcct.balance + 5 ∧
        (approve_user t).userAcct.available_balance
           = t.userAcct.available_balance + 5) ∧
     (approve_user
         (registered_referred_state initAccount c10ReferrerAcct 47)).referrerAcct
        = (registered_referred_state initAccount c10ReferrerAcct 47).referrerAcct ∧
     (approve_user (approve_user
         (registered_referred_state initAccount c10ReferrerAcct 47))).referrerAcct
        = (registered_referred_state initAccount c10ReferrerAcct 47).referrerAcct) :=
  ⟨rfl, C10_registration_bonus_only
     (registered_referred_state initAccount c10ReferrerAcct 47) rfl⟩

end PillarBank
